import Mathlib

/-!
Shallow embedding of the capsule packet-overlay fragment
(src/framework/src/packets/ethernet.rs and src/framework/src/packets/udp.rs).

The mutable packet buffer (the DPDK MBuf data area) is modelled as a
`List Nat` of byte values; a raw pointer into the buffer is modelled as a
byte index. A header overlay holds the fields the Rust structs hold: its
envelope, its mbuf handle, its byte offset, and the location of its header.
Field getters read bytes from the buffer; field setters return the updated
buffer (the Rust setters mutate only through the header pointer, so the
overlay record itself is never changed by a setter).

Multi-byte fields are stored in network byte order: `u16::to_be` /
`u16::from_be` together with the in-memory representation of a `u16` mean
that the two bytes at the field's location are the big-endian bytes of the
value, on every host architecture, which is what the byte-level reads and
writes below encode.
-/

/-- A byte of the packet buffer, read through the header pointer
(out-of-range reads return 0; a successfully constructed overlay never
reads out of range). -/
def readByte (buf : List Nat) (i : Nat) : Nat :=
  buf.getD i 0

/-- Store one byte of the packet buffer through the header pointer. -/
def writeByte (buf : List Nat) (i v : Nat) : List Nat :=
  buf.set i v

/-- Read a `u16` stored in network byte order (`u16::from_be` applied to the
two bytes at `i`). -/
def readU16BE (buf : List Nat) (i : Nat) : Nat :=
  readByte buf i * 256 + readByte buf (i + 1)

/-- Write a `u16` in network byte order (`u16::to_be` of the value, then the
two bytes stored at `i`): high byte first, low byte second. -/
def writeU16BE (buf : List Nat) (i v : Nat) : List Nat :=
  writeByte (writeByte buf i (v % 65536 / 256)) (i + 1) (v % 256)

/-- MAC address: `pub struct MacAddr(pub [u8; 6])`. -/
structure MacAddr where
  a : Nat
  b : Nat
  c : Nat
  d : Nat
  e : Nat
  f : Nat
  deriving DecidableEq, Repr

/-- `MacAddr::new`. -/
def MacAddr.new (a b c d e f : Nat) : MacAddr :=
  ⟨a, b, c, d, e, f⟩

/-- `MacAddr::new_from_slice`: reads `slice[0]` through `slice[5]`.
Rust's indexing panics when the slice is shorter than 6; the panic is
modelled as `none`. -/
def MacAddr.new_from_slice (s : List Nat) : Option MacAddr :=
  (s.get? 0).bind fun a =>
    (s.get? 1).bind fun b =>
      (s.get? 2).bind fun c =>
        (s.get? 3).bind fun d =>
          (s.get? 4).bind fun e =>
            (s.get? 5).map fun f => MacAddr.new a b c d e f

/-- A MacAddr value copied out of the buffer (the 6 bytes at `i`). -/
def readMac (buf : List Nat) (i : Nat) : MacAddr :=
  MacAddr.new (readByte buf i) (readByte buf (i + 1)) (readByte buf (i + 2))
    (readByte buf (i + 3)) (readByte buf (i + 4)) (readByte buf (i + 5))

/-- A MacAddr value stored into the buffer (6 `u8` octets at `i`). -/
def writeMac (buf : List Nat) (i : Nat) (m : MacAddr) : List Nat :=
  writeByte (writeByte (writeByte (writeByte (writeByte (writeByte buf
    i (m.a % 256)) (i + 1) (m.b % 256)) (i + 2) (m.c % 256))
    (i + 3) (m.d % 256)) (i + 4) (m.e % 256)) (i + 5) (m.f % 256)

/-- Lower-case hex digit character: 0-9 then a-f (Rust's LowerHex digits). -/
def hexChar (d : Nat) : Char :=
  if d < 10 then Char.ofNat (48 + d) else Char.ofNat (87 + d)

/-- The digit loop of Rust's LowerHex formatting: emit base-16 digits, least
significant first, pushed onto the front of the accumulator, so the result
lists the most significant digit first; always at least one digit. Fuel is
structural; `n + 1` units always suffice. -/
def rustHexCore : Nat → Nat → List Char → List Char
  | 0, _, acc => acc
  | fuel + 1, n, acc =>
    if n < 16 then hexChar n :: acc
    else rustHexCore fuel (n / 16) (hexChar (n % 16) :: acc)

/-- The significant base-16 digits of `n`, lowercase, most significant
first. -/
def rustHex (n : Nat) : List Char :=
  rustHexCore (n + 1) n []

/-- Zero padding on the left to minimum width `w` (the `0w` part of a Rust
format item such as `{:04x}`). -/
def padZeros (w : Nat) (l : List Char) : List Char :=
  List.replicate (w - l.length) (Char.ofNat 48) ++ l

/-- Rust's `{:0wx}` formatting of a nonnegative integer: lowercase hex
digits, zero-padded on the left to width `w`. -/
def fmtHex (w n : Nat) : String :=
  String.mk (padZeros w (rustHex n))

/-- `impl fmt::Display for MacAddr`:
`"{:02x}:{:02x}:{:02x}:{:02x}:{:02x}:{:02x}"` over the six octets. -/
def MacAddr.display (m : MacAddr) : String :=
  fmtHex 2 m.a ++ ":" ++ fmtHex 2 m.b ++ ":" ++ fmtHex 2 m.c ++ ":" ++
    fmtHex 2 m.d ++ ":" ++ fmtHex 2 m.e ++ ":" ++ fmtHex 2 m.f

/-- `pub struct EtherType(pub u16)`. -/
structure EtherType where
  val : Nat
  deriving DecidableEq, Repr

/-- `EtherType::new`. -/
def EtherType.new (value : Nat) : EtherType :=
  ⟨value⟩

/-- `EtherTypes::Ipv4`. -/
def EtherTypes.Ipv4 : EtherType := EtherType.new 0x0800

/-- `EtherTypes::Ipv6`. -/
def EtherTypes.Ipv6 : EtherType := EtherType.new 0x86DD

/-- `impl fmt::Display for EtherType`: match on the two named constants,
otherwise `format!("0x{:04x}", self.0)`. -/
def EtherType.display (t : EtherType) : String :=
  if t = EtherTypes.Ipv4 then "IPv4"
  else if t = EtherTypes.Ipv6 then "IPv6"
  else "0x" ++ fmtHex 4 t.val

/-- Byte widths of `EthernetHeader`'s declared fields under
`repr(C, packed)`: dst `MacAddr` (6), src `MacAddr` (6), ether_type `u16`
(2). -/
def EthernetHeader.fieldWidths : List Nat := [6, 6, 2]

/-- Modelled from the spec: the fixed-size contract (`Fixed::size`, whose
default implementation is not under src/) — a header type's single constant
byte size, equal to the sum of its declared wire-format field widths with
zero padding. -/
def EthernetHeader.size : Nat := EthernetHeader.fieldWidths.sum

/-- Byte widths of `UdpHeader`'s declared fields (four `u16`s, no padding
under `repr(C)`): src_port, dst_port, length, checksum. -/
def UdpHeader.fieldWidths : List Nat := [2, 2, 2, 2]

/-- Modelled from the spec: the fixed-size contract for `UdpHeader` (same
missing `Fixed::size` default): the sum of the declared field widths. -/
def UdpHeader.size : Nat := UdpHeader.fieldWidths.sum

/-- Modelled from the spec: `RawPacket`, the buffer root that envelopes the
first layer (its code is not under src/); it carries the mbuf handle. -/
structure RawPacket where
  mbuf : Nat
  deriving DecidableEq, Repr

/-- `pub struct Ethernet`: envelope, mbuf, offset, header pointer (the
header pointer is modelled as the byte index of the header in the
buffer). -/
structure Ethernet where
  envelope : RawPacket
  mbuf : Nat
  offset : Nat
  header : Nat
  deriving DecidableEq, Repr

/-- `Ethernet::dst`: `self.header().dst`. -/
def Ethernet.dst (p : Ethernet) (buf : List Nat) : MacAddr :=
  readMac buf p.header

/-- `Ethernet::set_dst`: `self.header().dst = dst`. -/
def Ethernet.set_dst (p : Ethernet) (buf : List Nat) (dst : MacAddr) : List Nat :=
  writeMac buf p.header dst

/-- `Ethernet::src`: `self.header().src`. -/
def Ethernet.src (p : Ethernet) (buf : List Nat) : MacAddr :=
  readMac buf (p.header + 6)

/-- `Ethernet::set_src`: `self.header().src = src`. -/
def Ethernet.set_src (p : Ethernet) (buf : List Nat) (src : MacAddr) : List Nat :=
  writeMac buf (p.header + 6) src

/-- `Ethernet::ether_type`: `EtherType::new(u16::from_be(self.header().ether_type))`. -/
def Ethernet.ether_type (p : Ethernet) (buf : List Nat) : EtherType :=
  EtherType.new (readU16BE buf (p.header + 12))

/-- `Ethernet::set_ether_type`: `self.header().ether_type = u16::to_be(ether_type.0)`. -/
def Ethernet.set_ether_type (p : Ethernet) (buf : List Nat) (t : EtherType) : List Nat :=
  writeU16BE buf (p.header + 12) t.val

/-- `Ethernet::header_len`: `Self::Header::size()`. -/
def Ethernet.header_len (_ : Ethernet) : Nat :=
  EthernetHeader.size

/-- `impl fmt::Display for Ethernet`:
`"{} > {}, ether_type: {}"` over src, dst, ether_type. -/
def Ethernet.display (p : Ethernet) (buf : List Nat) : String :=
  (p.src buf).display ++ " > " ++ (p.dst buf).display ++ ", ether_type: " ++
    (p.ether_type buf).display

/-- `pub struct Udp<E: IpPacket>`: envelope, mbuf, offset, header pointer. -/
structure Udp (E : Type) where
  envelope : E
  mbuf : Nat
  offset : Nat
  header : Nat
  deriving DecidableEq, Repr

/-- `Udp::src_port`: `u16::from_be(self.header().src_port)`. -/
def Udp.src_port {E : Type} (u : Udp E) (buf : List Nat) : Nat :=
  readU16BE buf u.header

/-- `Udp::set_src_port`. -/
def Udp.set_src_port {E : Type} (u : Udp E) (buf : List Nat) (v : Nat) : List Nat :=
  writeU16BE buf u.header v

/-- `Udp::dst_port`. -/
def Udp.dst_port {E : Type} (u : Udp E) (buf : List Nat) : Nat :=
  readU16BE buf (u.header + 2)

/-- `Udp::set_dst_port`. -/
def Udp.set_dst_port {E : Type} (u : Udp E) (buf : List Nat) (v : Nat) : List Nat :=
  writeU16BE buf (u.header + 2) v

/-- `Udp::length`. -/
def Udp.length {E : Type} (u : Udp E) (buf : List Nat) : Nat :=
  readU16BE buf (u.header + 4)

/-- `Udp::set_length`. -/
def Udp.set_length {E : Type} (u : Udp E) (buf : List Nat) (v : Nat) : List Nat :=
  writeU16BE buf (u.header + 4) v

/-- `Udp::checksum`. -/
def Udp.checksum {E : Type} (u : Udp E) (buf : List Nat) : Nat :=
  readU16BE buf (u.header + 6)

/-- `Udp::set_checksum`. -/
def Udp.set_checksum {E : Type} (u : Udp E) (buf : List Nat) (v : Nat) : List Nat :=
  writeU16BE buf (u.header + 6) v

/-- `Udp::header_len`: `Self::Header::size()`. -/
def Udp.header_len {E : Type} (_ : Udp E) : Nat :=
  UdpHeader.size

/-- `impl fmt::Display for Udp`:
`"src_port: {}, dst_port: {}, length: {}, checksum: {}"` (decimal `u16`
rendering of each getter). -/
def Udp.display {E : Type} (u : Udp E) (buf : List Nat) : String :=
  "src_port: " ++ Nat.repr (u.src_port buf) ++ ", dst_port: " ++
    Nat.repr (u.dst_port buf) ++ ", length: " ++ Nat.repr (u.length buf) ++
    ", checksum: " ++ Nat.repr (u.checksum buf)

/-- The failure outcome of overlay construction ("could not parse: buffer
too short"). -/
inductive ParseError where
  | bufferTooShort
  deriving DecidableEq, Repr

/-- `Ethernet::from_packet`: unconditionally builds the overlay bound to the
given envelope, mbuf, offset and header location. -/
def Ethernet.from_packet (envelope : RawPacket) (mbuf offset header : Nat) :
    Except ParseError Ethernet :=
  Except.ok { envelope := envelope, mbuf := mbuf, offset := offset, header := header }

/-- `Udp::from_packet`: unconditionally builds the overlay bound to the
given envelope, mbuf, offset and header location. -/
def Udp.from_packet {E : Type} (envelope : E) (mbuf offset header : Nat) :
    Except ParseError (Udp E) :=
  Except.ok { envelope := envelope, mbuf := mbuf, offset := offset, header := header }

/-- Modelled from the spec: the bounds-checked construction of the packet
overlay protocol (the `Packet` trait's generic parse, not under src/): it
fails iff `offset + header_size > buffer.length()`, and otherwise delegates
to `from_packet` with the header located at the parse offset. -/
def Ethernet.parse (envelope : RawPacket) (mbuf : Nat) (buf : List Nat)
    (offset : Nat) : Except ParseError Ethernet :=
  if offset + EthernetHeader.size > buf.length then Except.error ParseError.bufferTooShort
  else Ethernet.from_packet envelope mbuf offset offset

/-- Modelled from the spec: the same bounds-checked construction for the
transport header. -/
def Udp.parse {E : Type} (envelope : E) (mbuf : Nat) (buf : List Nat)
    (offset : Nat) : Except ParseError (Udp E) :=
  if offset + UdpHeader.size > buf.length then Except.error ParseError.bufferTooShort
  else Udp.from_packet envelope mbuf offset offset

/-- Modelled from the spec: the network-layer (IPv4) overlay between the
link-layer and transport headers. Its code (`packets::ip::v4`) is not under
src/; the spec's end-to-end scenario and chaining invariant fix what the
model needs: it is produced at the link layer's offset plus 14 and its
fixed header occupies 20 bytes (52-byte packet, 8-byte transport header at
offset 34, 10-byte payload). -/
structure Ipv4 where
  envelope : Ethernet
  mbuf : Nat
  offset : Nat
  header : Nat
  deriving DecidableEq, Repr

/-- Modelled from the spec: the IPv4 fixed header size used for chaining. -/
def Ipv4Header.size : Nat := 20

/-- Modelled from the spec: bounds-checked construction of the IPv4
overlay. -/
def Ipv4.parse (envelope : Ethernet) (mbuf : Nat) (buf : List Nat)
    (offset : Nat) : Except ParseError Ipv4 :=
  if offset + Ipv4Header.size > buf.length then Except.error ParseError.bufferTooShort
  else Except.ok { envelope := envelope, mbuf := mbuf, offset := offset, header := offset }

/-- Modelled from the spec: `RawPacket::parse::<Ethernet>()` starts the
chain at offset 0 of the buffer. -/
def RawPacket.parseEthernet (rp : RawPacket) (buf : List Nat) :
    Except ParseError Ethernet :=
  Ethernet.parse rp rp.mbuf buf 0

/-- Modelled from the spec: `ethernet.parse::<Ipv4>()` — the next layer's
offset is `this.offset() + this.header_len()`. -/
def Ethernet.parseIpv4 (p : Ethernet) (buf : List Nat) :
    Except ParseError Ipv4 :=
  Ipv4.parse p p.mbuf buf (p.offset + p.header_len)

/-- Modelled from the spec: `ipv4.parse::<Udp<Ipv4>>()` — the transport
offset is the network layer's offset plus its fixed header size. -/
def Ipv4.parseUdp (ip : Ipv4) (buf : List Nat) :
    Except ParseError (Udp Ipv4) :=
  Udp.parse ip ip.mbuf buf (ip.offset + Ipv4Header.size)

/-- The 52-byte test packet `UDP_PACKET` from udp.rs. -/
def UDP_PACKET : List Nat :=
  [0x00, 0x00, 0x00, 0x00, 0x00, 0x01,
   0x00, 0x00, 0x00, 0x00, 0x00, 0x02,
   0x08, 0x00,
   0x45, 0x00,
   0x00, 0x26,
   0xab, 0x49, 0x40, 0x00,
   0xff, 0x11, 0xf7, 0x00,
   0x8b, 0x85, 0xd9, 0x6e,
   0x8b, 0x85, 0xe9, 0x02,
   0x99, 0xd0, 0x04, 0x3f,
   0x00, 0x12, 0x72, 0x28,
   0x68, 0x65, 0x6c, 0x6c, 0x6f, 0x68, 0x65, 0x6c, 0x6c, 0x6f]

/-! ### Helper lemmas: buffer reads over writes -/

theorem readByte_writeByte (buf : List Nat) (i j v : Nat) :
    readByte (writeByte buf i v) j =
      if j = i ∧ i < buf.length then v else readByte buf j := by
  unfold readByte writeByte
  by_cases h : j = i
  · subst h
    by_cases hl : j < buf.length
    · simp [List.getD, List.getElem?_set_eq_of_lt _ hl, hl]
    · have hs : buf.set j v = buf := List.set_eq_of_length_le (by omega)
      simp [hs, hl]
  · simp [List.getD, List.getElem?_set_ne (Ne.symm h), h]

theorem length_writeByte (buf : List Nat) (i v : Nat) :
    (writeByte buf i v).length = buf.length := by
  simp [writeByte]

theorem length_writeU16BE (buf : List Nat) (i v : Nat) :
    (writeU16BE buf i v).length = buf.length := by
  simp [writeU16BE, length_writeByte]

theorem length_writeMac (buf : List Nat) (i : Nat) (m : MacAddr) :
    (writeMac buf i m).length = buf.length := by
  simp [writeMac, length_writeByte]

theorem readU16BE_writeU16BE (buf : List Nat) (i v : Nat) (h : i + 2 ≤ buf.length) :
    readU16BE (writeU16BE buf i v) i = v % 65536 := by
  simp +arith [readU16BE, writeU16BE, readByte_writeByte, length_writeByte]
  split_ifs <;> omega

theorem readMac_writeMac (buf : List Nat) (i : Nat) (m : MacAddr) (h : i + 6 ≤ buf.length) :
    readMac (writeMac buf i m) i =
      MacAddr.new (m.a % 256) (m.b % 256) (m.c % 256) (m.d % 256) (m.e % 256) (m.f % 256) := by
  simp +arith [readMac, writeMac, readByte_writeByte, length_writeByte, MacAddr.new]
  omega

/-! ### Helper lemmas: the hex formatter -/

theorem rustHexCore_last (fuel n : Nat) (acc : List Char) (h : n < 16) :
    rustHexCore (fuel + 1) n acc = hexChar n :: acc := by
  simp [rustHexCore, h]

theorem rustHexCore_step (fuel n : Nat) (acc : List Char) (h : 16 ≤ n) :
    rustHexCore (fuel + 1) n acc = rustHexCore fuel (n / 16) (hexChar (n % 16) :: acc) := by
  simp [rustHexCore, Nat.not_lt.mpr h]

theorem rustHex_eq_one (n : Nat) (h : n < 16) : rustHex n = [hexChar n] := by
  unfold rustHex
  rw [rustHexCore_last _ _ _ h]

theorem rustHex_eq_two (n : Nat) (h1 : 16 ≤ n) (h2 : n < 256) :
    rustHex n = [hexChar (n / 16), hexChar (n % 16)] := by
  unfold rustHex
  rw [rustHexCore_step _ _ _ h1]
  obtain ⟨m, rfl⟩ : ∃ m, n = m + 1 := ⟨n - 1, by omega⟩
  rw [rustHexCore_last _ _ _ (by omega)]

theorem rustHex_eq_three (n : Nat) (h1 : 256 ≤ n) (h2 : n < 4096) :
    rustHex n = [hexChar (n / 256), hexChar (n / 16 % 16), hexChar (n % 16)] := by
  unfold rustHex
  rw [rustHexCore_step _ _ _ (by omega)]
  obtain ⟨m, rfl⟩ : ∃ m, n = m + 1 := ⟨n - 1, by omega⟩
  rw [rustHexCore_step _ _ _ (by omega)]
  obtain ⟨k, hk⟩ : ∃ k, m = k + 1 := ⟨m - 1, by omega⟩
  subst hk
  rw [rustHexCore_last _ _ _ (by omega)]
  simp only [Nat.div_div_eq_div_mul]

theorem rustHex_eq_four (n : Nat) (h1 : 4096 ≤ n) (h2 : n < 65536) :
    rustHex n = [hexChar (n / 4096), hexChar (n / 256 % 16),
      hexChar (n / 16 % 16), hexChar (n % 16)] := by
  unfold rustHex
  rw [rustHexCore_step _ _ _ (by omega)]
  obtain ⟨m, rfl⟩ : ∃ m, n = m + 1 := ⟨n - 1, by omega⟩
  rw [rustHexCore_step _ _ _ (by omega)]
  obtain ⟨k, hk⟩ : ∃ k, m = k + 1 := ⟨m - 1, by omega⟩
  subst hk
  rw [rustHexCore_step _ _ _ (by omega)]
  obtain ⟨j, hj⟩ : ∃ j, k = j + 1 := ⟨k - 1, by omega⟩
  subst hj
  rw [rustHexCore_last _ _ _ (by omega)]
  simp only [Nat.div_div_eq_div_mul]

theorem fmtHex_u16 (n : Nat) (h : n < 65536) :
    fmtHex 4 n = String.mk [hexChar (n / 4096 % 16), hexChar (n / 256 % 16),
      hexChar (n / 16 % 16), hexChar (n % 16)] := by
  unfold fmtHex padZeros
  by_cases c1 : n < 16
  · rw [rustHex_eq_one _ c1]
    have e1 : n / 4096 % 16 = 0 := by omega
    have e2 : n / 256 % 16 = 0 := by omega
    have e3 : n / 16 % 16 = 0 := by omega
    have e4 : n % 16 = n := by omega
    rw [e1, e2, e3, e4]
    have hc : hexChar 0 = Char.ofNat 48 := by decide
    simp [List.replicate, hc]
  · by_cases c2 : n < 256
    · rw [rustHex_eq_two _ (by omega) c2]
      have e1 : n / 4096 % 16 = 0 := by omega
      have e2 : n / 256 % 16 = 0 := by omega
      have e3 : n / 16 % 16 = n / 16 := by omega
      rw [e1, e2, e3]
      have hc : hexChar 0 = Char.ofNat 48 := by decide
      simp [List.replicate, hc]
    · by_cases c3 : n < 4096
      · rw [rustHex_eq_three _ (by omega) c3]
        have e1 : n / 4096 % 16 = 0 := by omega
        have e2 : n / 256 % 16 = n / 256 := by omega
        rw [e1, e2]
        have hc : hexChar 0 = Char.ofNat 48 := by decide
        simp [List.replicate, hc]
      · rw [rustHex_eq_four _ (by omega) h]
        have e1 : n / 4096 % 16 = n / 4096 := by omega
        rw [e1]
        simp [List.replicate]

theorem fmtHex_u8 (n : Nat) (h : n < 256) :
    fmtHex 2 n = String.mk [hexChar (n / 16 % 16), hexChar (n % 16)] := by
  unfold fmtHex padZeros
  by_cases c1 : n < 16
  · rw [rustHex_eq_one _ c1]
    have e3 : n / 16 % 16 = 0 := by omega
    have e4 : n % 16 = n := by omega
    rw [e3, e4]
    have hc : hexChar 0 = Char.ofNat 48 := by decide
    simp [List.replicate, hc]
  · rw [rustHex_eq_two _ (by omega) h]
    have e3 : n / 16 % 16 = n / 16 := by omega
    rw [e3]
    simp [List.replicate]

/-! ### Claim theorems -/

/-- C1: for every header type (Ethernet, Udp), envelope, buffer and offset,
the bounds-checked construction fails iff
`offset + header_size > buffer.length()`; on success it returns an overlay
bound to exactly the given envelope, buffer (mbuf), offset, and header
location (the parse offset); on failure it returns the error and no
partially constructed overlay. -/
theorem parse_bounds_spec {E : Type} (env : RawPacket) (envU : E) (mbuf : Nat)
    (buf : List Nat) (offset : Nat) :
    (offset + EthernetHeader.size > buf.length →
      Ethernet.parse env mbuf buf offset = Except.error ParseError.bufferTooShort) ∧
    (offset + EthernetHeader.size ≤ buf.length →
      Ethernet.parse env mbuf buf offset =
        Except.ok { envelope := env, mbuf := mbuf, offset := offset, header := offset }) ∧
    (offset + UdpHeader.size > buf.length →
      Udp.parse envU mbuf buf offset = Except.error ParseError.bufferTooShort) ∧
    (offset + UdpHeader.size ≤ buf.length →
      Udp.parse envU mbuf buf offset =
        Except.ok { envelope := envU, mbuf := mbuf, offset := offset, header := offset }) := by
  refine ⟨fun h => ?_, fun h => ?_, fun h => ?_, fun h => ?_⟩
  · unfold Ethernet.parse
    rw [if_pos h]
  · unfold Ethernet.parse Ethernet.from_packet
    rw [if_neg (by omega)]
  · unfold Udp.parse
    rw [if_pos h]
  · unfold Udp.parse Udp.from_packet
    rw [if_neg (by omega)]

/-- Witness for C1: on the 52-byte test packet, Ethernet construction
succeeds at offset 0 (52 - 14 = 38 spare) and fails at offset 39; Udp
construction succeeds at offset 44 (44 + 8 = 52) and fails at offset 45. -/
theorem parse_bounds_spec_witness :
    Ethernet.parse ⟨0⟩ 0 UDP_PACKET 0 =
      Except.ok { envelope := ⟨0⟩, mbuf := 0, offset := 0, header := 0 } ∧
    Ethernet.parse ⟨0⟩ 0 UDP_PACKET 39 = Except.error ParseError.bufferTooShort ∧
    Udp.parse (⟨0⟩ : RawPacket) 0 UDP_PACKET 44 =
      Except.ok { envelope := ⟨0⟩, mbuf := 0, offset := 44, header := 44 } ∧
    Udp.parse (⟨0⟩ : RawPacket) 0 UDP_PACKET 45 = Except.error ParseError.bufferTooShort :=
  ⟨(parse_bounds_spec ⟨0⟩ (⟨0⟩ : RawPacket) 0 UDP_PACKET 0).2.1 (by decide),
   (parse_bounds_spec ⟨0⟩ (⟨0⟩ : RawPacket) 0 UDP_PACKET 39).1 (by decide),
   (parse_bounds_spec ⟨0⟩ (⟨0⟩ : RawPacket) 0 UDP_PACKET 44).2.2.2 (by decide),
   (parse_bounds_spec ⟨0⟩ (⟨0⟩ : RawPacket) 0 UDP_PACKET 45).2.2.1 (by decide)⟩

/-- C2: for every constructed Ethernet overlay, `header_len()` is the
constant 14; for every constructed Udp overlay, `header_len()` is the
constant 8; each equals the sum of the declared wire-format field widths
with zero padding. -/
theorem header_len_spec {E : Type} (p : Ethernet) (u : Udp E) :
    p.header_len = 14 ∧ p.header_len = EthernetHeader.fieldWidths.sum ∧
    u.header_len = 8 ∧ u.header_len = UdpHeader.fieldWidths.sum :=
  ⟨rfl, rfl, rfl, rfl⟩

/-- C5: parsing the 52-byte `UDP_PACKET` buffer link layer first, then the
network layer, then the transport layer, yields exactly destination address
00:00:00:00:00:01, source address 00:00:00:00:00:02, ether type IPv4
(0x0800), src_port 39376, dst_port 1087, length 18 and checksum 0x7228,
with the layer offsets chained as offset + header_len. -/
theorem udp_packet_end_to_end :
    ∃ eth ip4 udp,
      RawPacket.parseEthernet ⟨0⟩ UDP_PACKET = Except.ok eth ∧
      Ethernet.parseIpv4 eth UDP_PACKET = Except.ok ip4 ∧
      Ipv4.parseUdp ip4 UDP_PACKET = Except.ok udp ∧
      Ethernet.dst eth UDP_PACKET = MacAddr.new 0 0 0 0 0 1 ∧
      Ethernet.src eth UDP_PACKET = MacAddr.new 0 0 0 0 0 2 ∧
      Ethernet.ether_type eth UDP_PACKET = EtherTypes.Ipv4 ∧
      Ethernet.ether_type eth UDP_PACKET = EtherType.new 0x0800 ∧
      Udp.src_port udp UDP_PACKET = 39376 ∧
      Udp.dst_port udp UDP_PACKET = 1087 ∧
      Udp.length udp UDP_PACKET = 18 ∧
      Udp.checksum udp UDP_PACKET = 0x7228 ∧
      udp.offset = ip4.offset + Ipv4Header.size ∧
      ip4.offset = eth.offset + eth.header_len ∧
      eth.offset = 0 := by
  refine ⟨_, _, _, rfl, rfl, rfl, ?_, ?_, ?_, ?_, ?_, ?_, ?_, ?_, ?_, rfl, rfl⟩ <;> decide

/-- C3: for every constructed overlay and every 16-bit field (ether_type,
src_port, dst_port, length, checksum), writing 0x1234 through the typed
setter stores the raw bytes 0x12 then 0x34 (big-endian) at the field's
location in the header, and the typed getter is the big-endian (network to
host order) reading of the stored bytes; the model has no host byte order,
so these equalities are architecture-independent. -/
theorem byte_order_spec {E : Type} (p : Ethernet) (u : Udp E) (buf : List Nat)
    (hp : p.header + 14 ≤ buf.length) (hu : u.header + 8 ≤ buf.length) :
    (readByte (Ethernet.set_ether_type p buf (EtherType.new 0x1234)) (p.header + 12) = 0x12 ∧
     readByte (Ethernet.set_ether_type p buf (EtherType.new 0x1234)) (p.header + 13) = 0x34) ∧
    (readByte (Udp.set_src_port u buf 0x1234) u.header = 0x12 ∧
     readByte (Udp.set_src_port u buf 0x1234) (u.header + 1) = 0x34) ∧
    (readByte (Udp.set_dst_port u buf 0x1234) (u.header + 2) = 0x12 ∧
     readByte (Udp.set_dst_port u buf 0x1234) (u.header + 3) = 0x34) ∧
    (readByte (Udp.set_length u buf 0x1234) (u.header + 4) = 0x12 ∧
     readByte (Udp.set_length u buf 0x1234) (u.header + 5) = 0x34) ∧
    (readByte (Udp.set_checksum u buf 0x1234) (u.header + 6) = 0x12 ∧
     readByte (Udp.set_checksum u buf 0x1234) (u.header + 7) = 0x34) ∧
    Ethernet.ether_type p buf =
      EtherType.new (readByte buf (p.header + 12) * 256 + readByte buf (p.header + 13)) ∧
    Udp.src_port u buf = readByte buf u.header * 256 + readByte buf (u.header + 1) ∧
    Udp.dst_port u buf = readByte buf (u.header + 2) * 256 + readByte buf (u.header + 3) ∧
    Udp.length u buf = readByte buf (u.header + 4) * 256 + readByte buf (u.header + 5) ∧
    Udp.checksum u buf = readByte buf (u.header + 6) * 256 + readByte buf (u.header + 7) := by
  refine ⟨⟨?_, ?_⟩, ⟨?_, ?_⟩, ⟨?_, ?_⟩, ⟨?_, ?_⟩, ⟨?_, ?_⟩, rfl, rfl, rfl, rfl, rfl⟩ <;>
    · simp +arith [Ethernet.set_ether_type, EtherType.new, Udp.set_src_port,
        Udp.set_dst_port, Udp.set_length, Udp.set_checksum, writeU16BE,
        readByte_writeByte, length_writeByte]
      omega

/-- Witness for C3 at header location 0 of a 14-byte zero buffer. -/
theorem byte_order_spec_witness :
    readByte (Ethernet.set_ether_type ⟨⟨0⟩, 0, 0, 0⟩ (List.replicate 14 0)
      (EtherType.new 0x1234)) 12 = 0x12 ∧
    readByte (Ethernet.set_ether_type ⟨⟨0⟩, 0, 0, 0⟩ (List.replicate 14 0)
      (EtherType.new 0x1234)) 13 = 0x34 ∧
    readByte (Udp.set_src_port (⟨⟨0⟩, 0, 0, 0⟩ : Udp RawPacket)
      (List.replicate 14 0) 0x1234) 0 = 0x12 ∧
    readByte (Udp.set_src_port (⟨⟨0⟩, 0, 0, 0⟩ : Udp RawPacket)
      (List.replicate 14 0) 0x1234) 1 = 0x34 := by
  have h := byte_order_spec (E := RawPacket) ⟨⟨0⟩, 0, 0, 0⟩ ⟨⟨0⟩, 0, 0, 0⟩
    (List.replicate 14 0) (by decide) (by decide)
  exact ⟨h.1.1, h.1.2, h.2.1.1, h.2.1.2⟩

/-- C4: for every constructed overlay, every field, and every value of the
field's semantic type (u8 octets for addresses, u16 for the integer
fields), setting the field and then getting it returns exactly the value
written. -/
theorem set_get_round_trip {E : Type} (p : Ethernet) (u : Udp E) (buf : List Nat)
    (m : MacAddr) (t : EtherType) (v : Nat)
    (hp : p.header + 14 ≤ buf.length) (hu : u.header + 8 ≤ buf.length)
    (hma : m.a < 256) (hmb : m.b < 256) (hmc : m.c < 256)
    (hmd : m.d < 256) (hme : m.e < 256) (hmf : m.f < 256)
    (ht : t.val < 65536) (hv : v < 65536) :
    Ethernet.dst p (Ethernet.set_dst p buf m) = m ∧
    Ethernet.src p (Ethernet.set_src p buf m) = m ∧
    Ethernet.ether_type p (Ethernet.set_ether_type p buf t) = t ∧
    Udp.src_port u (Udp.set_src_port u buf v) = v ∧
    Udp.dst_port u (Udp.set_dst_port u buf v) = v ∧
    Udp.length u (Udp.set_length u buf v) = v ∧
    Udp.checksum u (Udp.set_checksum u buf v) = v := by
  obtain ⟨a, b, c, d, e, f⟩ := m
  obtain ⟨tv⟩ := t
  refine ⟨?_, ?_, ?_, ?_, ?_, ?_, ?_⟩
  · unfold Ethernet.dst Ethernet.set_dst
    rw [readMac_writeMac _ _ _ (by omega)]
    simp [MacAddr.new, Nat.mod_eq_of_lt hma, Nat.mod_eq_of_lt hmb, Nat.mod_eq_of_lt hmc,
      Nat.mod_eq_of_lt hmd, Nat.mod_eq_of_lt hme, Nat.mod_eq_of_lt hmf]
  · unfold Ethernet.src Ethernet.set_src
    rw [readMac_writeMac _ _ _ (by omega)]
    simp [MacAddr.new, Nat.mod_eq_of_lt hma, Nat.mod_eq_of_lt hmb, Nat.mod_eq_of_lt hmc,
      Nat.mod_eq_of_lt hmd, Nat.mod_eq_of_lt hme, Nat.mod_eq_of_lt hmf]
  · unfold Ethernet.ether_type Ethernet.set_ether_type
    rw [readU16BE_writeU16BE _ _ _ (by omega)]
    simp [EtherType.new, Nat.mod_eq_of_lt ht]
  · unfold Udp.src_port Udp.set_src_port
    rw [readU16BE_writeU16BE _ _ _ (by omega)]
    omega
  · unfold Udp.dst_port Udp.set_dst_port
    rw [readU16BE_writeU16BE _ _ _ (by omega)]
    omega
  · unfold Udp.length Udp.set_length
    rw [readU16BE_writeU16BE _ _ _ (by omega)]
    omega
  · unfold Udp.checksum Udp.set_checksum
    rw [readU16BE_writeU16BE _ _ _ (by omega)]
    omega

/-- Witness for C4: a MAC round trip through set_dst/dst and a u16 round
trip through set_checksum/checksum at concrete inputs. -/
theorem set_get_round_trip_witness :
    Ethernet.dst ⟨⟨0⟩, 0, 0, 0⟩ (Ethernet.set_dst ⟨⟨0⟩, 0, 0, 0⟩
      (List.replicate 14 0) (MacAddr.new 1 2 3 4 5 6)) = MacAddr.new 1 2 3 4 5 6 ∧
    Udp.checksum (⟨⟨0⟩, 0, 0, 0⟩ : Udp RawPacket) (Udp.set_checksum
      (⟨⟨0⟩, 0, 0, 0⟩ : Udp RawPacket) (List.replicate 14 0) 0x1234) = 0x1234 := by
  have h := set_get_round_trip (E := RawPacket) ⟨⟨0⟩, 0, 0, 0⟩ ⟨⟨0⟩, 0, 0, 0⟩
    (List.replicate 14 0) (MacAddr.new 1 2 3 4 5 6) (EtherType.new 0x0800) 0x1234
    (by decide) (by decide) (by decide) (by decide) (by decide)
    (by decide) (by decide) (by decide) (by decide) (by decide)
  exact ⟨h.1, h.2.2.2.2.2.2⟩

/-- C6: for every 16-bit protocol-type code, the (total, never-failing)
Display formatting yields "IPv4" for 0x0800, "IPv6" for 0x86DD, and
otherwise "0x" followed by the code's four lowercase hex digits; the
right-hand side spells the four digits out explicitly, so this equates the
source's padded formatter with the spec's wording. -/
theorem ether_type_display_spec (v : Nat) (h : v < 65536) :
    EtherType.display (EtherType.new v) =
      (if v = 0x0800 then "IPv4"
       else if v = 0x86DD then "IPv6"
       else "0x" ++ String.mk [hexChar (v / 4096 % 16), hexChar (v / 256 % 16),
         hexChar (v / 16 % 16), hexChar (v % 16)]) := by
  unfold EtherType.display
  by_cases h1 : v = 0x0800
  · subst h1
    simp [EtherTypes.Ipv4, EtherType.new]
  · by_cases h2 : v = 0x86DD
    · subst h2
      simp [EtherTypes.Ipv4, EtherTypes.Ipv6, EtherType.new]
    · rw [if_neg (by simp [EtherTypes.Ipv4, EtherType.new]; omega),
          if_neg (by simp [EtherTypes.Ipv6, EtherType.new]; omega),
          if_neg h1, if_neg h2]
      show "0x" ++ fmtHex 4 v = _
      rw [fmtHex_u16 v h]

/-- Witness for C6: the unrecognized code 0xABCD formats as "0xabcd". -/
theorem ether_type_display_spec_witness :
    EtherType.display (EtherType.new 0xABCD) = "0xabcd" := by
  have h := ether_type_display_spec 0xABCD (by decide)
  rw [h]
  decide

/-- C7: every 6-byte address formats as the six octets rendered as
lowercase two-digit hex pairs joined by colons (the pairs spelled out
digit by digit), and in particular the all-zero address formats as
"00:00:00:00:00:00" and the all-255 address as "ff:ff:ff:ff:ff:ff". -/
theorem mac_display_spec (m : MacAddr) (ha : m.a < 256) (hb : m.b < 256)
    (hc : m.c < 256) (hd : m.d < 256) (he : m.e < 256) (hf : m.f < 256) :
    MacAddr.display m =
      String.mk [hexChar (m.a / 16 % 16), hexChar (m.a % 16)] ++ ":" ++
      String.mk [hexChar (m.b / 16 % 16), hexChar (m.b % 16)] ++ ":" ++
      String.mk [hexChar (m.c / 16 % 16), hexChar (m.c % 16)] ++ ":" ++
      String.mk [hexChar (m.d / 16 % 16), hexChar (m.d % 16)] ++ ":" ++
      String.mk [hexChar (m.e / 16 % 16), hexChar (m.e % 16)] ++ ":" ++
      String.mk [hexChar (m.f / 16 % 16), hexChar (m.f % 16)] ∧
    MacAddr.display (MacAddr.new 0 0 0 0 0 0) = "00:00:00:00:00:00" ∧
    MacAddr.display (MacAddr.new 255 255 255 255 255 255) = "ff:ff:ff:ff:ff:ff" := by
  refine ⟨?_, by decide, by decide⟩
  unfold MacAddr.display
  rw [fmtHex_u8 _ ha, fmtHex_u8 _ hb, fmtHex_u8 _ hc, fmtHex_u8 _ hd,
    fmtHex_u8 _ he, fmtHex_u8 _ hf]

/-- Witness for C7: the mixed-case source test vector formats lowercase. -/
theorem mac_display_spec_witness :
    MacAddr.display (MacAddr.new 0x12 0x34 0x56 0xAB 0xCD 0xEF) = "12:34:56:ab:cd:ef" := by
  have h := (mac_display_spec (MacAddr.new 0x12 0x34 0x56 0xAB 0xCD 0xEF)
    (by decide) (by decide) (by decide) (by decide) (by decide) (by decide)).1
  rw [h]
  decide

/-- C8: the human-readable summary of the link-layer header is exactly
"src > dst, ether_type: type" with the source address first, and the
transport summary is exactly
"src_port: p, dst_port: p, length: n, checksum: c", each placeholder being
the corresponding typed getter's value; evaluated concretely on the parsed
overlays of the 52-byte test packet. -/
theorem header_display_spec {E : Type} (p : Ethernet) (u : Udp E) (buf : List Nat) :
    Ethernet.display p buf =
      (Ethernet.src p buf).display ++ " > " ++ (Ethernet.dst p buf).display ++
        ", ether_type: " ++ (Ethernet.ether_type p buf).display ∧
    Udp.display u buf =
      "src_port: " ++ Nat.repr (Udp.src_port u buf) ++ ", dst_port: " ++
        Nat.repr (Udp.dst_port u buf) ++ ", length: " ++ Nat.repr (Udp.length u buf) ++
        ", checksum: " ++ Nat.repr (Udp.checksum u buf) ∧
    Ethernet.display { envelope := ⟨0⟩, mbuf := 0, offset := 0, header := 0 } UDP_PACKET =
      "00:00:00:00:00:02 > 00:00:00:00:00:01, ether_type: IPv4" ∧
    Udp.display
      ({ envelope := { envelope := { envelope := ⟨0⟩, mbuf := 0, offset := 0, header := 0 },
                       mbuf := 0, offset := 14, header := 14 },
         mbuf := 0, offset := 34, header := 34 } : Udp Ipv4) UDP_PACKET =
      "src_port: 39376, dst_port: 1087, length: 18, checksum: 29224" :=
  ⟨rfl, rfl, by decide, by decide⟩

/-- C9: each setter changes only the bytes of its own field: every buffer
byte outside the field's range and every other header field of the same
overlay are unchanged. (In this embedding a setter returns only the new
buffer and cannot touch the overlay record, so the offset and envelope of
the overlay are unchanged by construction.) -/
theorem setter_frame_spec {E : Type} (p : Ethernet) (u : Udp E) (buf : List Nat)
    (m : MacAddr) (t : EtherType) (v j : Nat) :
    ((j < p.header ∨ p.header + 6 ≤ j) →
      readByte (Ethernet.set_dst p buf m) j = readByte buf j) ∧
    ((j < p.header + 6 ∨ p.header + 12 ≤ j) →
      readByte (Ethernet.set_src p buf m) j = readByte buf j) ∧
    ((j < p.header + 12 ∨ p.header + 14 ≤ j) →
      readByte (Ethernet.set_ether_type p buf t) j = readByte buf j) ∧
    ((j < u.header ∨ u.header + 2 ≤ j) →
      readByte (Udp.set_src_port u buf v) j = readByte buf j) ∧
    ((j < u.header + 2 ∨ u.header + 4 ≤ j) →
      readByte (Udp.set_dst_port u buf v) j = readByte buf j) ∧
    ((j < u.header + 4 ∨ u.header + 6 ≤ j) →
      readByte (Udp.set_length u buf v) j = readByte buf j) ∧
    ((j < u.header + 6 ∨ u.header + 8 ≤ j) →
      readByte (Udp.set_checksum u buf v) j = readByte buf j) ∧
    Ethernet.src p (Ethernet.set_dst p buf m) = Ethernet.src p buf ∧
    Ethernet.ether_type p (Ethernet.set_dst p buf m) = Ethernet.ether_type p buf ∧
    Ethernet.dst p (Ethernet.set_src p buf m) = Ethernet.dst p buf ∧
    Ethernet.ether_type p (Ethernet.set_src p buf m) = Ethernet.ether_type p buf ∧
    Ethernet.dst p (Ethernet.set_ether_type p buf t) = Ethernet.dst p buf ∧
    Ethernet.src p (Ethernet.set_ether_type p buf t) = Ethernet.src p buf ∧
    Udp.dst_port u (Udp.set_src_port u buf v) = Udp.dst_port u buf ∧
    Udp.length u (Udp.set_src_port u buf v) = Udp.length u buf ∧
    Udp.checksum u (Udp.set_src_port u buf v) = Udp.checksum u buf ∧
    Udp.src_port u (Udp.set_dst_port u buf v) = Udp.src_port u buf ∧
    Udp.length u (Udp.set_dst_port u buf v) = Udp.length u buf ∧
    Udp.checksum u (Udp.set_dst_port u buf v) = Udp.checksum u buf ∧
    Udp.src_port u (Udp.set_length u buf v) = Udp.src_port u buf ∧
    Udp.dst_port u (Udp.set_length u buf v) = Udp.dst_port u buf ∧
    Udp.checksum u (Udp.set_length u buf v) = Udp.checksum u buf ∧
    Udp.src_port u (Udp.set_checksum u buf v) = Udp.src_port u buf ∧
    Udp.dst_port u (Udp.set_checksum u buf v) = Udp.dst_port u buf ∧
    Udp.length u (Udp.set_checksum u buf v) = Udp.length u buf := by
  refine ⟨?_, ?_, ?_, ?_, ?_, ?_, ?_, ?_, ?_, ?_, ?_, ?_, ?_, ?_, ?_, ?_, ?_, ?_, ?_,
    ?_, ?_, ?_, ?_, ?_, ?_⟩ <;> intros <;>
    simp +arith [Ethernet.set_dst, Ethernet.set_src, Ethernet.set_ether_type,
      Udp.set_src_port, Udp.set_dst_port, Udp.set_length, Udp.set_checksum,
      Ethernet.dst, Ethernet.src, Ethernet.ether_type,
      Udp.src_port, Udp.dst_port, Udp.length, Udp.checksum,
      readMac, readU16BE, writeMac, writeU16BE, MacAddr.new, EtherType.new,
      readByte_writeByte, length_writeByte] <;>
    first
    | rfl
    | omega
    | (split_ifs <;> omega)

/-- Witness for C9: on the test packet, set_dst leaves byte 7 (inside the
src field) and the whole src getter unchanged. -/
theorem setter_frame_spec_witness :
    readByte (Ethernet.set_dst ⟨⟨0⟩, 0, 0, 0⟩ UDP_PACKET (MacAddr.new 9 9 9 9 9 9)) 7 =
      readByte UDP_PACKET 7 ∧
    Ethernet.src ⟨⟨0⟩, 0, 0, 0⟩ (Ethernet.set_dst ⟨⟨0⟩, 0, 0, 0⟩ UDP_PACKET
      (MacAddr.new 9 9 9 9 9 9)) = Ethernet.src ⟨⟨0⟩, 0, 0, 0⟩ UDP_PACKET := by
  have h := setter_frame_spec (E := RawPacket) ⟨⟨0⟩, 0, 0, 0⟩ ⟨⟨0⟩, 0, 34, 34⟩
    UDP_PACKET (MacAddr.new 9 9 9 9 9 9) (EtherType.new 0) 0xFFFF 7
  exact ⟨h.1 (Or.inr (by decide)), h.2.2.2.2.2.2.2.1⟩

/-- C10: `MacAddr::new_from_slice` reads exactly the first six elements:
for every slice of length at least 6 it returns the address made of
elements 0 through 5 (so it agrees with itself on the 6-element prefix),
and on any shorter slice the indexing is out of bounds (modelled as
`none`). -/
theorem new_from_slice_spec (s : List Nat) :
    (6 ≤ s.length →
      MacAddr.new_from_slice s =
        some (MacAddr.new (s.getD 0 0) (s.getD 1 0) (s.getD 2 0)
          (s.getD 3 0) (s.getD 4 0) (s.getD 5 0)) ∧
      MacAddr.new_from_slice s = MacAddr.new_from_slice (s.take 6)) ∧
    (s.length < 6 → MacAddr.new_from_slice s = none) := by
  constructor
  · intro h
    rcases s with _ | ⟨a, _ | ⟨b, _ | ⟨c, _ | ⟨d, _ | ⟨e, _ | ⟨f, rest⟩⟩⟩⟩⟩⟩ <;>
      simp_all [MacAddr.new_from_slice, MacAddr.new]
  · intro h
    rcases s with _ | ⟨a, _ | ⟨b, _ | ⟨c, _ | ⟨d, _ | ⟨e, _ | ⟨f, rest⟩⟩⟩⟩⟩⟩ <;>
      simp_all [MacAddr.new_from_slice]
    omega

/-- Witness for C10: a 7-element slice keeps its first six elements and
drops the seventh; a 3-element slice is rejected. -/
theorem new_from_slice_spec_witness :
    MacAddr.new_from_slice [1, 2, 3, 4, 5, 6, 7] = some (MacAddr.new 1 2 3 4 5 6) ∧
    MacAddr.new_from_slice [1, 2, 3] = none :=
  ⟨((new_from_slice_spec [1, 2, 3, 4, 5, 6, 7]).1 (by decide)).1.trans (by decide),
   (new_from_slice_spec [1, 2, 3]).2 (by decide)⟩
